import Mathlib

/-!
Verification of the session/response state machine and report-generation
logic of the AI Learning Gap Assistant (src/app.py), shallowly embedded
in Lean.  The external LLM call is modelled as an `Except`-valued input;
clock readings are explicit string parameters.
-/

namespace App

/-- A single refinement reply attached to a question record
(src/app.py lines 223-227). -/
structure Refinement where
  timestamp : String
  mode : String
  response : String
deriving DecidableEq, Repr

/-- One per-question metadata entry of `st.session_state.meta_log`
(src/app.py lines 199-209). -/
structure QuestionRecord where
  timestamp : String
  topic : String
  subject : String
  bloom_level : String
  style : String
  question : String
  response : String
  refinement_count : Nat
  refinements : List Refinement
deriving DecidableEq, Repr

/-- The Streamlit session state keys initialised at src/app.py
lines 114-123.  `chat_history` holds (speaker, message) pairs. -/
structure SessionState where
  chat_history : List (String × String)
  meta_log : List QuestionRecord
  confidence_log : List String
  last_answer : Option String
  session_topic : String
  session_active : Bool
deriving DecidableEq, Repr

/-- Initial session state (src/app.py lines 114-123). -/
def initial_state : SessionState :=
  { chat_history := []
  , meta_log := []
  , confidence_log := []
  , last_answer := none
  , session_topic := ""
  , session_active := true }

/-- The tag prepended to the assistant reply (src/app.py lines 176-181). -/
def response_tag (mode : String) : String :=
  if mode = "primary" then "(v1 — Main Explanation)"
  else if mode = "simpler" then "(v2 — Simpler Explanation)"
  else "(v2 — More Real-World Examples)"

/-- In-place mutation of the last element of a list, mirroring the
Python `meta_log[-1]` updates at src/app.py lines 221-227. -/
def updateLast (f : QuestionRecord → QuestionRecord) :
    List QuestionRecord → List QuestionRecord
  | [] => []
  | [x] => [f x]
  | x :: y :: xs => x :: updateLast f (y :: xs)

/-- The state-mutating part of `generate_response` (src/app.py lines
129-229).  The external call `client.chat.completions.create` is the
`llm` argument; everything before it in the source only builds local
strings, so on an exception (`Except.error`) no mutation has happened
and the error propagates.  On success the function returns the new
session state, the new persistent log-file contents, and the answer. -/
def generate_response (st : SessionState) (file : List QuestionRecord)
    (question subject bloom_level style mode now : String)
    (llm : Except String String) :
    Except String (SessionState × List QuestionRecord × String) :=
  match llm with
  | .error e => .error e
  | .ok answer =>
    let tag := response_tag mode
    let ch₁ :=
      if mode = "primary" then st.chat_history ++ [("Student", question)]
      else st.chat_history
    let ch₂ := ch₁ ++ [("AI Assistant", tag ++ "\n\n" ++ answer)]
    if mode = "primary" then
      let entry : QuestionRecord :=
        { timestamp := now
        , topic := st.session_topic
        , subject := subject
        , bloom_level := bloom_level
        , style := style
        , question := question
        , response := answer
        , refinement_count := 0
        , refinements := [] }
      .ok ({ st with chat_history := ch₂
                   , last_answer := some answer
                   , meta_log := st.meta_log ++ [entry] },
           file ++ [entry], answer)
    else
      .ok ({ st with chat_history := ch₂
                   , last_answer := some answer
                   , meta_log :=
                       updateLast (fun last =>
                         { last with
                             refinement_count := last.refinement_count + 1
                           , refinements := last.refinements ++
                               [{ timestamp := now, mode := mode,
                                  response := answer }] }) st.meta_log },
           file, answer)

/-- The module-level call site (src/app.py lines 420-427 and 473-484):
an uncaught exception from `generate_response` leaves the session state
and the log file exactly as they were. -/
def run_llm_interaction (st : SessionState) (file : List QuestionRecord)
    (question subject bloom_level style mode now : String)
    (llm : Except String String) : SessionState × List QuestionRecord :=
  match generate_response st file question subject bloom_level style mode
      now llm with
  | .error _ => (st, file)
  | .ok (st', file', _) => (st', file')

/-- Priority Classifier (src/app.py lines 235-243). -/
def get_revision_priority (ref_count : Nat) (conf_trend : List String) :
    String :=
  if ref_count ≥ 2 ∨ "Low" ∈ conf_trend then "HIGH ⚠ — Needs revision"
  else if ref_count = 1 ∨ "Medium" ∈ conf_trend then
    "MEDIUM — Review recommended"
  else "LOW — Concept understood"

/-- "Start New Session" handler (src/app.py lines 374-380). -/
def reset_session (st : SessionState) : SessionState :=
  { st with chat_history := []
          , meta_log := []
          , confidence_log := []
          , last_answer := none
          , session_active := true }

/-- "Exit Session" handler (src/app.py lines 382-384). -/
def exit_session (st : SessionState) : SessionState :=
  { st with session_active := false }

/-- The `" → ".join(...) or "No feedback submitted"` expression at
src/app.py line 254 (the empty joined string is falsy in Python). -/
def conf_trend_text (confidence_log : List String) : String :=
  let joined := String.intercalate " → " confidence_log
  if joined = "" then "No feedback submitted" else joined

/-- One refinement block of the summary (src/app.py lines 286-292);
`i` is the enumeration index starting at 2. -/
def refinementBlock (i : Nat) (r : Refinement) : String :=
  let label :=
    if r.mode = "simpler" then "Simpler Explanation" else "More Examples"
  "\n  Answer Version " ++ toString i ++ " — " ++ label ++ ":\n  "
    ++ r.response ++ "\n"

/-- The `enumerate(entry["refinements"], start=2)` loop of the summary. -/
def refinementBlocks (i : Nat) : List Refinement → String
  | [] => ""
  | r :: rs => refinementBlock i r ++ refinementBlocks (i + 1) rs

/-- One per-entry block of the summary (src/app.py lines 268-292). -/
def entryBlock (confidence_log : List String) (e : QuestionRecord) :
    String :=
  let priority := get_revision_priority e.refinement_count confidence_log
  "\n• Question: " ++ e.question
    ++ "\n  Subject: " ++ e.subject
    ++ "\n  Bloom Level: " ++ e.bloom_level
    ++ "\n\n  Revision Priority: " ++ priority
    ++ "\n\n  Answer Version 1 (Main Explanation):\n  " ++ e.response ++ "\n"
    ++ refinementBlocks 2 e.refinements

/-- Summary Builder (src/app.py lines 249-302).  `now` is the value of
`datetime.datetime.now().strftime('%d-%m-%Y %H:%M')` at the moment of
the call. -/
def generate_summary (st : SessionState) (now : String) : String :=
  if st.meta_log = [] then "No questions asked yet."
  else
    "\nAI Learning Session Summary\n\nSession Topic: "
      ++ st.session_topic
      ++ "\nDate: " ++ now
      ++ "\n\nTotal Questions: " ++ toString st.meta_log.length
      ++ "\nConfidence Trend: " ++ conf_trend_text st.confidence_log
      ++ "\n"
      ++ "\n\nQuestions & Learning Attempts:\n"
      ++ String.join (st.meta_log.map (entryBlock st.confidence_log))
      ++ "\nReflection Notes:\n• Revise HIGH-priority topics first\n• Use simpler mode when confidence is low\n• Use examples mode when concepts feel abstract\n• Attempt practice questions after revision\n"

/-- An element of the reportlab `story` list built by
`export_pdf_buffer` (src/app.py lines 329-335). -/
inductive StoryElem where
  | spacer
  | paragraph (text : String)
deriving DecidableEq, Repr

/-- The story construction loop of `export_pdf_buffer` (src/app.py
lines 331-335): each blank line of the summary becomes a `Spacer`,
each other line a `Paragraph`. -/
def pdfStory (text : String) : List StoryElem :=
  (text.splitOn "\n").map fun line =>
    if line.trim = "" then StoryElem.spacer else StoryElem.paragraph line

/-- The texts of the paragraphs of a story, in order. -/
def storyParagraphs : List StoryElem → List String
  | [] => []
  | StoryElem.spacer :: rest => storyParagraphs rest
  | StoryElem.paragraph t :: rest => t :: storyParagraphs rest

/-- File name of the PDF download (src/app.py lines 312-315).  `now` is
`datetime.datetime.now().strftime('%d-%m-%Y_%H%M')`; an empty topic is
falsy in Python, so `topic or 'Learning'` is modelled by the test
`topic = ""`. -/
def pdf_filename (topic now : String) : String :=
  "Session_" ++ (if topic = "" then "Learning" else topic) ++ "_"
    ++ now ++ ".pdf"

/-- File name of the plain-text download (src/app.py lines 531-534). -/
def txt_filename (topic now : String) : String :=
  "Session_" ++ (if topic = "" then "Learning" else topic) ++ "_"
    ++ now ++ ".txt"

/-- File name of the JSON download (src/app.py line 554): a constant,
independent of topic and time. -/
def json_log_filename : String := "session_log.json"

/-- Outputs of the summary-and-downloads section (src/app.py lines
523-555): the preview text is always rendered; the TXT data and the PDF
story are offered only when `meta_log` is non-empty.  The script calls
`generate_summary()` once for the preview/TXT (clock reading `now`) and
a second time inside `export_pdf_buffer` (clock reading `nowPdf`). -/
def render_summary_section (st : SessionState) (now nowPdf : String) :
    String × Option String × Option (List StoryElem) :=
  let summary_text := generate_summary st now
  if st.meta_log = [] then (summary_text, none, none)
  else (summary_text, some summary_text,
        some (pdfStory (generate_summary st nowPdf)))

/-- JSON values, as produced by Python's `json.dump` / consumed by
`json.load` for the log file `student_sessions.json`. -/
inductive Json where
  | null
  | bool (b : Bool)
  | num (n : Int)
  | str (s : String)
  | arr (xs : List Json)
  | obj (fields : List (String × Json))
deriving Repr

/-- Extract a string value. -/
def Json.asStr : Json → Option String
  | .str s => some s
  | _ => none

/-- Extract a non-negative integer value. -/
def Json.asNat : Json → Option Nat
  | .num n => if 0 ≤ n then some n.toNat else none
  | _ => none

/-- Field lookup in a JSON object (Python dict access). -/
def Json.getField (j : Json) (key : String) : Option Json :=
  match j with
  | .obj fields => fields.lookup key
  | _ => none

/-- Serialization of one refinement dict (src/app.py lines 223-227). -/
def refToJson (r : Refinement) : Json :=
  .obj [("timestamp", .str r.timestamp), ("mode", .str r.mode),
        ("response", .str r.response)]

/-- Reading one refinement dict back from the log file. -/
def refFromJson (j : Json) : Option Refinement := do
  let t ← (j.getField "timestamp").bind Json.asStr
  let m ← (j.getField "mode").bind Json.asStr
  let r ← (j.getField "response").bind Json.asStr
  pure { timestamp := t, mode := m, response := r }

/-- Decode every element of a JSON list, failing if any element fails. -/
def decodeList (f : Json → Option α) : List Json → Option (List α)
  | [] => some []
  | j :: js =>
    match f j, decodeList f js with
    | some a, some as => some (a :: as)
    | _, _ => none

/-- Serialization of one `entry` dict written by `save_session`
(src/app.py lines 199-209, 69-73). -/
def entryToJson (e : QuestionRecord) : Json :=
  .obj [ ("timestamp", .str e.timestamp)
       , ("topic", .str e.topic)
       , ("subject", .str e.subject)
       , ("bloom_level", .str e.bloom_level)
       , ("style", .str e.style)
       , ("question", .str e.question)
       , ("response", .str e.response)
       , ("refinement_count", .num e.refinement_count)
       , ("refinements", .arr (e.refinements.map refToJson)) ]

/-- Reading one entry dict back from the log file. -/
def entryFromJson (j : Json) : Option QuestionRecord := do
  let ts ← (j.getField "timestamp").bind Json.asStr
  let tp ← (j.getField "topic").bind Json.asStr
  let su ← (j.getField "subject").bind Json.asStr
  let bl ← (j.getField "bloom_level").bind Json.asStr
  let sy ← (j.getField "style").bind Json.asStr
  let q ← (j.getField "question").bind Json.asStr
  let re ← (j.getField "response").bind Json.asStr
  let rc ← (j.getField "refinement_count").bind Json.asNat
  let refs ← match j.getField "refinements" with
    | some (.arr js) => decodeList refFromJson js
    | _ => none
  pure { timestamp := ts, topic := tp, subject := su, bloom_level := bl
       , style := sy, question := q, response := re
       , refinement_count := rc, refinements := refs }

/-- The log-file format: a JSON array of entry objects
(`json.dump(data, f)` at src/app.py lines 69-73). -/
def encodeEntries (l : List QuestionRecord) : Json :=
  .arr (l.map entryToJson)

/-- `load_sessions` (src/app.py lines 65-67) reading the array back. -/
def decodeEntries (j : Json) : Option (List QuestionRecord) :=
  match j with
  | .arr js => decodeList entryFromJson js
  | _ => none

/-- Number of (possibly overlapping) occurrences of `pat` in `s`,
counted position by position; a statement-side measuring device. -/
def countSubAux (pat : List Char) : List Char → Nat
  | [] => 0
  | c :: rest =>
    (if (c :: rest).take pat.length = pat then 1 else 0)
      + countSubAux pat rest

/-- Occurrences of the pattern string inside `s`. -/
def countOcc (pat s : String) : Nat := countSubAux pat.data s.data

/-- The per-record consistency property: the stored counter equals the
number of stored refinement replies. -/
def recInv (e : QuestionRecord) : Prop :=
  e.refinement_count = e.refinements.length

/-- The consistency property over a whole record log. -/
def logInv (l : List QuestionRecord) : Prop := ∀ e ∈ l, recInv e

/-- The concrete record of the spec's summary test case: question
"What is 1/2?" with one "simpler" refinement. -/
def exampleRecord : QuestionRecord :=
  { timestamp := "07-10-2026 11:58"
  , topic := "Fractions"
  , subject := "Math"
  , bloom_level := "Understand"
  , style := "Simple"
  , question := "What is 1/2?"
  , response := "One half is one of two equal parts of a whole."
  , refinement_count := 1
  , refinements := [{ timestamp := "07-10-2026 11:59"
                    , mode := "simpler"
                    , response := "Cut a shape into 2 equal pieces; one piece is 1/2." }] }

/-- The concrete session state of the spec's summary test case:
topic "Fractions", one record, confidence log ["Medium"]. -/
def exampleState : SessionState :=
  { chat_history :=
      [("Student", "What is 1/2?"),
       ("AI Assistant", "(v1 — Main Explanation)\n\nOne half is one of two equal parts of a whole.")]
  , meta_log := [exampleRecord]
  , confidence_log := ["Medium"]
  , last_answer := some "Cut a shape into 2 equal pieces; one piece is 1/2."
  , session_topic := "Fractions"
  , session_active := true }

/-! ## Helper lemmas -/

theorem updateLast_eq (f : QuestionRecord → QuestionRecord) :
    ∀ (l : List QuestionRecord) (h : l ≠ []),
      updateLast f l = l.dropLast ++ [f (l.getLast h)]
  | [], h => absurd rfl h
  | [x], _ => by simp [updateLast]
  | x :: y :: xs, _ => by
    have ih := updateLast_eq f (y :: xs) (by simp)
    simp [updateLast, ih, List.getLast]

theorem logInv_updateLast (f : QuestionRecord → QuestionRecord)
    (hf : ∀ e, recInv e → recInv (f e)) :
    ∀ l : List QuestionRecord, logInv l → logInv (updateLast f l) := by
  intro l
  induction l with
  | nil => intro _ e he; simp [updateLast] at he
  | cons x xs ih =>
    cases xs with
    | nil =>
      intro h e he
      simp [updateLast] at he
      subst he
      exact hf x (h x (by simp))
    | cons y ys =>
      intro h e he
      simp only [updateLast, List.mem_cons] at he
      rcases he with he | he
      · subst he; exact h e (by simp)
      · exact ih (fun e' he' => h e' (List.mem_cons_of_mem x he')) e he

theorem storyParagraphs_map (lines : List String) :
    storyParagraphs (lines.map fun line =>
        if line.trim = "" then StoryElem.spacer else StoryElem.paragraph line)
      = lines.filter fun l => !decide (l.trim = "") := by
  induction lines with
  | nil => simp [storyParagraphs]
  | cons a rest ih =>
    by_cases h : a.trim = "" <;>
      simp [h, storyParagraphs, List.filter, ih]

theorem ref_roundtrip (r : Refinement) :
    refFromJson (refToJson r) = some r := by
  cases r
  rfl

theorem decodeList_map {α : Type} (f : Json → Option α) (g : α → Json)
    (hfg : ∀ a, f (g a) = some a) :
    ∀ l : List α, decodeList f (l.map g) = some l
  | [] => rfl
  | a :: as => by
    simp [decodeList, hfg a, decodeList_map f g hfg as]

theorem entry_roundtrip (e : QuestionRecord) :
    entryFromJson (entryToJson e) = some e := by
  cases e with
  | mk ts tp su bl sy q re rc refs =>
    simp [entryFromJson, entryToJson, Json.getField, Json.asStr, Json.asNat,
      List.lookup, decodeList_map refFromJson refToJson ref_roundtrip]

/-! ## Claim theorems -/

/-- Claim C1: `get_revision_priority` returns the HIGH label exactly when
`refinement_count ≥ 2` or "Low" occurs in the confidence history;
otherwise the MEDIUM label exactly when `refinement_count = 1` or
"Medium" occurs; otherwise the LOW label.  In particular two or more
refinements force HIGH for any history, and a zero count with an empty
or all-"High" history yields LOW. -/
theorem revision_priority_classification (rc : Nat) (trend : List String) :
    (get_revision_priority rc trend = "HIGH ⚠ — Needs revision" ↔
      (2 ≤ rc ∨ "Low" ∈ trend)) ∧
    (get_revision_priority rc trend = "MEDIUM — Review recommended" ↔
      (¬(2 ≤ rc ∨ "Low" ∈ trend) ∧ (rc = 1 ∨ "Medium" ∈ trend))) ∧
    (get_revision_priority rc trend = "LOW — Concept understood" ↔
      (¬(2 ≤ rc ∨ "Low" ∈ trend) ∧ ¬(rc = 1 ∨ "Medium" ∈ trend))) ∧
    (2 ≤ rc → get_revision_priority rc trend = "HIGH ⚠ — Needs revision") ∧
    (rc = 0 → (∀ c ∈ trend, c = "High") →
      get_revision_priority rc trend = "LOW — Concept understood") := by
  have hHM : ("HIGH ⚠ — Needs revision" : String) ≠
      "MEDIUM — Review recommended" := by decide
  have hHL : ("HIGH ⚠ — Needs revision" : String) ≠
      "LOW — Concept understood" := by decide
  have hML : ("MEDIUM — Review recommended" : String) ≠
      "LOW — Concept understood" := by decide
  unfold get_revision_priority
  by_cases h1 : 2 ≤ rc ∨ "Low" ∈ trend
  · refine ⟨by simp [h1], by simp [h1, hHM.symm ∘ Eq.symm, hHM], by
      simp [h1, hHL], fun _ => by simp [h1], fun h0 hHigh => ?_⟩
    exfalso
    rcases h1 with h1 | h1
    · omega
    · exact absurd (hHigh "Low" h1) (by decide)
  · by_cases h2 : rc = 1 ∨ "Medium" ∈ trend
    · exact ⟨by simp [h1, h2, hHM], by simp [h1, h2],
        by simp [h1, h2, hML], fun hc => absurd (Or.inl hc) h1,
        fun h0 hHigh => by
          exfalso
          rcases h2 with h2 | h2
          · omega
          · exact absurd (hHigh "Medium" h2) (by decide)⟩
    · exact ⟨by simp [h1, h2, hHL], by simp [h1, h2, hML], by simp [h1, h2],
        fun hc => absurd (Or.inl hc) h1, fun _ _ => by simp [h1, h2]⟩

/-- Witness for C1 at a concrete input. -/
theorem revision_priority_classification_witness :
    get_revision_priority 0 ["High", "High"] = "LOW — Concept understood" :=
  (revision_priority_classification 0 ["High", "High"]).2.2.2.2 rfl
    (by decide)

/-- Claim C3: when the external LLM call fails, `generate_response` propagates
the error and performs no mutation: the session state and the persistent
log file after the interaction are exactly the ones before it. -/
theorem llm_failure_leaves_state_unchanged (st : SessionState)
    (file : List QuestionRecord)
    (question subject bloom_level style mode now e : String) :
    run_llm_interaction st file question subject bloom_level style mode now
        (.error e) = (st, file) ∧
    generate_response st file question subject bloom_level style mode now
        (.error e) = .error e := by
  exact ⟨rfl, rfl⟩

/-- Claim C4: session reset empties the transcript, the record log and the
confidence log and re-activates the session; exit only clears the
active flag and leaves all three logs untouched. -/
theorem reset_and_exit_behavior (st : SessionState) :
    (reset_session st).chat_history = [] ∧
    (reset_session st).meta_log = [] ∧
    (reset_session st).confidence_log = [] ∧
    (reset_session st).session_active = true ∧
    (exit_session st).session_active = false ∧
    (exit_session st).chat_history = st.chat_history ∧
    (exit_session st).meta_log = st.meta_log ∧
    (exit_session st).confidence_log = st.confidence_log := by
  simp [reset_session, exit_session]

/-- Claim C5: serializing any sequence of question records to the JSON
log-file format and reloading it yields the identical sequence. -/
theorem log_roundtrip (l : List QuestionRecord) :
    decodeEntries (encodeEntries l) = some l := by
  simp [decodeEntries, encodeEntries,
    decodeList_map entryFromJson entryToJson entry_roundtrip]

/-- Claim C2: a successful primary-mode call appends exactly one Student
message followed by exactly one Assistant message to the transcript; a
successful refinement-mode call ("simpler" or "more_examples") appends
exactly one Assistant message and no Student message. -/
theorem generate_response_transcript_shape (st : SessionState)
    (file : List QuestionRecord)
    (question subject bloom_level style now ans : String) :
    (∃ reply st' file',
      generate_response st file question subject bloom_level style
          "primary" now (.ok ans) = .ok (st', file', ans) ∧
      st'.chat_history =
        st.chat_history ++ [("Student", question), ("AI Assistant", reply)]) ∧
    (∀ mode, mode = "simpler" ∨ mode = "more_examples" →
      ∃ reply st' file',
        generate_response st file question subject bloom_level style
            mode now (.ok ans) = .ok (st', file', ans) ∧
        st'.chat_history = st.chat_history ++ [("AI Assistant", reply)]) := by
  constructor
  · refine ⟨response_tag "primary" ++ "\n\n" ++ ans, _, _, rfl, ?_⟩
    simp [generate_response]
  · rintro mode (rfl | rfl)
    · refine ⟨response_tag "simpler" ++ "\n\n" ++ ans, _, _, rfl, ?_⟩
      simp [generate_response]
    · refine ⟨response_tag "more_examples" ++ "\n\n" ++ ans, _, _, rfl, ?_⟩
      simp [generate_response]

/-- Witness for C2 at a concrete input. -/
theorem generate_response_transcript_shape_witness :
    ∃ reply st' file',
      generate_response initial_state [] "What is 1/2?" "Math" "Understand"
          "Simple" "simpler" "t0" (.ok "a0") = .ok (st', file', "a0") ∧
      st'.chat_history = initial_state.chat_history ++ [("AI Assistant", reply)] :=
  (generate_response_transcript_shape initial_state [] "What is 1/2?" "Math"
      "Understand" "Simple" "t0" "a0").2 "simpler" (Or.inl rfl)

/-- Claim C6: with a non-empty record log, a successful refinement-mode call
rewrites the log as its original front (`dropLast`) unchanged, followed
by the last record with its counter incremented and one refinement
appended — all other fields intact, the log file untouched. -/
theorem refinement_targets_last_record (st : SessionState)
    (file : List QuestionRecord)
    (question subject bloom_level style now ans mode : String)
    (hmode : mode = "simpler" ∨ mode = "more_examples")
    (hne : st.meta_log ≠ []) :
    ∃ st' file',
      generate_response st file question subject bloom_level style mode now
          (.ok ans) = .ok (st', file', ans) ∧
      file' = file ∧
      st'.meta_log = st.meta_log.dropLast ++
        [{ st.meta_log.getLast hne with
             refinement_count :=
               (st.meta_log.getLast hne).refinement_count + 1
           , refinements := (st.meta_log.getLast hne).refinements ++
               [{ timestamp := now, mode := mode, response := ans }] }] := by
  rcases hmode with rfl | rfl <;>
    · refine ⟨_, _, rfl, rfl, ?_⟩
      simp [generate_response, updateLast_eq _ st.meta_log hne]

/-- Witness for C6 at a concrete input. -/
theorem refinement_targets_last_record_witness :
    ∃ st' file',
      generate_response exampleState [] "again" "Math" "Understand" "Simple"
          "more_examples" "t1" (.ok "a1") = .ok (st', file', "a1") ∧
      file' = [] ∧
      st'.meta_log = exampleState.meta_log.dropLast ++
        [{ exampleState.meta_log.getLast (by simp [exampleState]) with
             refinement_count :=
               (exampleState.meta_log.getLast
                 (by simp [exampleState])).refinement_count + 1
           , refinements := (exampleState.meta_log.getLast
                 (by simp [exampleState])).refinements ++
               [{ timestamp := "t1", mode := "more_examples",
                  response := "a1" }] }] :=
  refinement_targets_last_record exampleState [] "again" "Math" "Understand"
    "Simple" "t1" "a1" "more_examples" (Or.inr rfl) (by simp [exampleState])

/-- Claim C10: every operation preserves the per-record invariant
`refinement_count = refinements.length`: it holds in the initial state,
is preserved by reset, exit and every successful `generate_response`
call, a primary call creating its record with counter 0 and no
refinements. -/
theorem refinement_count_matches_refinements (st : SessionState)
    (file : List QuestionRecord)
    (question subject bloom_level style mode now ans : String)
    (h : logInv st.meta_log) :
    logInv initial_state.meta_log ∧
    logInv (reset_session st).meta_log ∧
    logInv (exit_session st).meta_log ∧
    ∃ st' file',
      generate_response st file question subject bloom_level style mode now
          (.ok ans) = .ok (st', file', ans) ∧
      logInv st'.meta_log ∧
      (mode = "primary" →
        ∃ entry, st'.meta_log = st.meta_log ++ [entry] ∧
          entry.refinement_count = 0 ∧ entry.refinements = []) := by
  refine ⟨by intro e he; simp [initial_state] at he,
    by intro e he; simp [reset_session] at he,
    by intro e he; simpa [exit_session] using h e he, ?_⟩
  by_cases hmode : mode = "primary"
  · subst hmode
    refine ⟨_, _, rfl, ?_, ?_⟩
    · intro e he
      simp only [List.mem_append, List.mem_singleton] at he
      rcases he with he | he
      · exact h e he
      · subst he; rfl
    · exact fun _ => ⟨_, rfl, rfl, rfl⟩
  · refine ⟨{ st with
        chat_history := st.chat_history ++
          [("AI Assistant", response_tag mode ++ "\n\n" ++ ans)]
      , last_answer := some ans
      , meta_log := updateLast (fun last =>
          { last with refinement_count := last.refinement_count + 1
                    , refinements := last.refinements ++
                        [{ timestamp := now, mode := mode,
                           response := ans }] }) st.meta_log },
      file, ?_, ?_, fun hp => absurd hp hmode⟩
    · simp [generate_response, hmode]
    · exact logInv_updateLast _
        (fun e he => by simp [recInv] at he ⊢; omega) st.meta_log h

/-- Witness for C10 at a concrete input. -/
theorem refinement_count_matches_refinements_witness :
    logInv initial_state.meta_log ∧
    logInv (reset_session exampleState).meta_log ∧
    logInv (exit_session exampleState).meta_log ∧
    ∃ st' file',
      generate_response exampleState [] "again" "Math" "Understand" "Simple"
          "simpler" "t2" (.ok "a2") = .ok (st', file', "a2") ∧
      logInv st'.meta_log ∧
      ("simpler" = "primary" →
        ∃ entry, st'.meta_log = exampleState.meta_log ++ [entry] ∧
          entry.refinement_count = 0 ∧ entry.refinements = []) :=
  refinement_count_matches_refinements exampleState [] "again" "Math"
    "Understand" "Simple" "simpler" "t2" "a2"
    (by intro e he; simp [exampleState] at he; subst he; rfl)

/-- Claim C7: on the "Fractions" test state (one record for "What is 1/2?"
with one "simpler" refinement, confidence log ["Medium"]), the summary
contains exactly two answer-version blocks, labeled Version 1 and
Version 2 — Simpler Explanation, and its priority line reads
"MEDIUM — Review recommended". -/
theorem summary_example_blocks :
    countOcc "Answer Version"
        (generate_summary exampleState "07-10-2026 12:00") = 2 ∧
    countOcc "Answer Version 1 (Main Explanation):"
        (generate_summary exampleState "07-10-2026 12:00") = 1 ∧
    countOcc "Answer Version 2 — Simpler Explanation:"
        (generate_summary exampleState "07-10-2026 12:00") = 1 ∧
    countOcc "Revision Priority:"
        (generate_summary exampleState "07-10-2026 12:00") = 1 ∧
    countOcc "Revision Priority: MEDIUM — Review recommended"
        (generate_summary exampleState "07-10-2026 12:00") = 1 ∧
    get_revision_priority 1 ["Medium"] = "MEDIUM — Review recommended" := by
  set_option maxRecDepth 400000 in decide

/-- Claim C8, counterexample: the JSON download is offered under the constant
name "session_log.json", which matches no instance of the
`Session_{...}.{ext}` pattern. -/
theorem json_download_name_violates_pattern :
    json_log_filename = "session_log.json" ∧
    ¬ ∃ mid ext, json_log_filename = "Session_" ++ mid ++ "." ++ ext := by
  refine ⟨rfl, ?_⟩
  rintro ⟨mid, ext, h⟩
  have hd := congrArg (fun s : String => s.data.take 8) h
  simp only [String.data_append, List.append_assoc] at hd
  rw [List.take_left' (by rfl)] at hd
  exact absurd hd (by decide)

/-- Claim C8 as amended: the TXT and PDF downloads are offered under names of
the form `Session_{topic-or-"Learning"}_{timestamp}.{ext}`, the topic
placeholder being the session topic when non-empty and "Learning"
otherwise; the JSON dump is always offered as "session_log.json". -/
theorem download_filenames (topic now : String) :
    (∃ mid, (topic = "" → mid = "Learning") ∧ (topic ≠ "" → mid = topic) ∧
      txt_filename topic now = "Session_" ++ mid ++ "_" ++ now ++ ".txt" ∧
      pdf_filename topic now = "Session_" ++ mid ++ "_" ++ now ++ ".pdf") ∧
    json_log_filename = "session_log.json" := by
  refine ⟨⟨if topic = "" then "Learning" else topic, ?_, ?_, rfl, rfl⟩, rfl⟩
  · intro h; simp [h]
  · intro h; simp [h]

/-- Witness for C8's amended theorem at a concrete input. -/
theorem download_filenames_witness :
    (∃ mid, (("Fractions" : String) = "" → mid = "Learning") ∧
      (("Fractions" : String) ≠ "" → mid = "Fractions") ∧
      txt_filename "Fractions" "07-10-2026_1200" =
        "Session_" ++ mid ++ "_" ++ "07-10-2026_1200" ++ ".txt" ∧
      pdf_filename "Fractions" "07-10-2026_1200" =
        "Session_" ++ mid ++ "_" ++ "07-10-2026_1200" ++ ".pdf") ∧
    json_log_filename = "session_log.json" :=
  download_filenames "Fractions" "07-10-2026_1200"

/-- Claim C9, counterexample: `generate_summary` embeds the clock reading
taken during the call, so two invocations on the same session state at
different clock readings produce different text — it is not a function
of the session state alone. -/
theorem summary_not_function_of_state_alone :
    generate_summary exampleState "07-10-2026 12:00" ≠
      generate_summary exampleState "07-10-2026 12:01" := by
  set_option maxRecDepth 400000 in decide

/-- Claim C9 as amended: `generate_summary` is a deterministic function of the
session state and the clock reading; with a single clock reading the
preview, the TXT export data and the PDF story all consume that same
one text, each blank line becoming a Spacer (paragraph break) and each
non-blank line a Paragraph. -/
theorem summary_single_source (st : SessionState) (now : String)
    (hne : st.meta_log ≠ []) :
    render_summary_section st now now =
      (generate_summary st now, some (generate_summary st now),
        some (pdfStory (generate_summary st now))) ∧
    storyParagraphs (pdfStory (generate_summary st now)) =
      ((generate_summary st now).splitOn "\n").filter
        (fun l => !decide (l.trim = "")) ∧
    (pdfStory (generate_summary st now)).length =
      ((generate_summary st now).splitOn "\n").length := by
  refine ⟨by simp [render_summary_section, hne], ?_, by simp [pdfStory]⟩
  simpa [pdfStory] using
    storyParagraphs_map ((generate_summary st now).splitOn "\n")

/-- Witness for C9's amended theorem at a concrete input. -/
theorem summary_single_source_witness :
    render_summary_section exampleState "07-10-2026 12:00" "07-10-2026 12:00" =
      (generate_summary exampleState "07-10-2026 12:00",
        some (generate_summary exampleState "07-10-2026 12:00"),
        some (pdfStory (generate_summary exampleState "07-10-2026 12:00"))) ∧
    storyParagraphs (pdfStory (generate_summary exampleState "07-10-2026 12:00")) =
      ((generate_summary exampleState "07-10-2026 12:00").splitOn "\n").filter
        (fun l => !decide (l.trim = "")) ∧
    (pdfStory (generate_summary exampleState "07-10-2026 12:00")).length =
      ((generate_summary exampleState "07-10-2026 12:00").splitOn "\n").length :=
  summary_single_source exampleState "07-10-2026 12:00"
    (by simp [exampleState])

end App
